import Mathlib

/-!
Verification development for the ga4-dashboard chat pipeline.

The Python sources are shallowly embedded as executable Lean definitions:

* query strings are `List Char` (Unicode scalar values, matching Python str);
* calendar dates are proleptic-Gregorian ordinals (`Int`, 0001-01-01 = 1),
  exactly `datetime.date.toordinal`; `datetime.date` subtraction that would
  fall before `date.min` raises `OverflowError`, modelled by `csub`
  returning `none` (an exception escaping the function is `none` at its
  call site);
* numeric metric values are `ℚ` (Python floats: the arithmetic the claims
  mention is exact at every modelled input, so rationals are used instead
  of IEEE floats);
* pandas dataframes are lists of rows; `df.head(n)` is `pandasHead`
  (`head(None)` returns all rows, as `self.iloc[:None]` does).

Regular-expression search (`re.search`) is modelled for the concrete
patterns the code uses, all of shape `literal-prefix (\d+) literal-suffix`
with a non-digit suffix: leftmost match wins and the greedy digit group
cannot backtrack past a non-digit suffix, so `scanNum` scans positions
left to right and takes the maximal digit run.  Python's `\d` matches any
Unicode decimal digit; the model recognises the ASCII and full-width
digits that can occur in the Japanese queries of this application.
-/

/-! ## String utilities -/

/-- Boolean test that `p` occurs at the start of `l`. -/
def startsWith : List Char → List Char → Bool
  | [], _ => true
  | _ :: _, [] => false
  | p :: ps, c :: cs => p == c && startsWith ps cs

/-- Boolean substring containment (`needle in haystack` on Python str). -/
def containsSeq (needle : List Char) : List Char → Bool
  | [] => startsWith needle []
  | c :: cs => startsWith needle (c :: cs) || containsSeq needle cs

/-- ASCII or full-width decimal digit (the digit classes reachable in the
queries of this application; Python `\d` is all of Unicode Nd). -/
def isPyDigit (c : Char) : Bool :=
  ('0' ≤ c && c ≤ '9') || ('０' ≤ c && c ≤ '９')

/-- Numeric value of a digit character (0 for non-digits). -/
def digitVal (c : Char) : Nat :=
  if '0' ≤ c ∧ c ≤ '9' then c.toNat - 48
  else if '０' ≤ c ∧ c ≤ '９' then c.toNat - 65296
  else 0

/-- Value of a digit string, as Python `int()` computes it. -/
def digitsToNat (ds : List Char) : Nat :=
  ds.foldl (fun a c => 10 * a + digitVal c) 0

/-- Tail of one `re.search` position: the greedy digit group `ds` must be
non-empty and the literal suffix must follow it. -/
def numTail (suf ds rest : List Char) : Option Nat :=
  if ds.isEmpty then none
  else if startsWith suf (rest.drop ds.length) then some (digitsToNat ds)
  else none

/-- Search for the pattern `pre (\d+) suf` at the head of `l`; returns the
extracted integer.  Mirrors one position of `re.search`: the digit group is
greedy, and since every suffix used starts with a non-digit character no
shorter group can succeed. -/
def matchNumAt (pre suf l : List Char) : Option Nat :=
  if startsWith pre l then
    numTail suf ((l.drop pre.length).takeWhile isPyDigit) (l.drop pre.length)
  else none

/-- Leftmost search for `pre (\d+) suf` over the whole text (`re.search`). -/
def scanNum (pre suf : List Char) : List Char → Option Nat
  | [] => matchNumAt pre suf []
  | c :: cs =>
    match matchNumAt pre suf (c :: cs) with
    | some n => some n
    | none => scanNum pre suf cs

/-! ## Python number formatting -/

/-- Python `int()` on a float value: truncation toward zero. -/
def pyInt (x : ℚ) : Int := x.num.tdiv x.den

/-- Insert thousands separators walking the reversed digit list. -/
def commaRevAux : List Char → Nat → List Char
  | [], _ => []
  | c :: cs, i =>
    if i ≠ 0 ∧ i % 3 = 0 then ',' :: c :: commaRevAux cs (i + 1)
    else c :: commaRevAux cs (i + 1)

/-- Python `f"{n:,}"` for an integer: thousands separators. -/
def commaSep (n : Int) : String :=
  let digits := (Nat.repr n.natAbs).toList
  let grouped := ((commaRevAux digits.reverse 0).reverse)
  String.mk ((if n < 0 then ['-'] else []) ++ grouped)

/-- Round to the nearest integer, ties to even (Python float formatting). -/
def roundHalfEven (x : ℚ) : Int :=
  let f := Int.floor x
  let frac := x - f
  if frac < 1 / 2 then f
  else if 1 / 2 < frac then f + 1
  else if f % 2 = 0 then f else f + 1

/-- Left-pad a natural number with zeros to `w` digits. -/
def padNat (w : Nat) (n : Nat) : String :=
  let s := Nat.repr n
  String.mk (List.replicate (w - s.length) '0') ++ s

/-- Python `f"{x:.2f}"` (modelled on the exact rational value). -/
def fmt2 (x : ℚ) : String :=
  let n := roundHalfEven (x * 100)
  let a := n.natAbs
  (if n < 0 then "-" else "") ++ Nat.repr (a / 100) ++ "." ++ padNat 2 (a % 100)

/-- Python `f"{x:.1f}"` (modelled on the exact rational value). -/
def fmt1 (x : ℚ) : String :=
  let n := roundHalfEven (x * 10)
  let a := n.natAbs
  (if n < 0 then "-" else "") ++ Nat.repr (a / 10) ++ "." ++ Nat.repr (a % 10)

/-! ## Calendar dates (`datetime.date`) -/

/-- Gregorian leap year, as `calendar.isleap` / `datetime` use it. -/
def isLeapYear (y : Int) : Prop :=
  y % 4 = 0 ∧ (¬ y % 100 = 0 ∨ y % 400 = 0)

instance (y : Int) : Decidable (isLeapYear y) := by
  unfold isLeapYear; infer_instance

/-- Days in year `y` strictly before month `m` in a non-leap year. -/
def daysBeforeMonthTbl (m : Int) : Int :=
  if m = 1 then 0 else if m = 2 then 31 else if m = 3 then 59
  else if m = 4 then 90 else if m = 5 then 120 else if m = 6 then 151
  else if m = 7 then 181 else if m = 8 then 212 else if m = 9 then 243
  else if m = 10 then 273 else if m = 11 then 304 else 334

/-- Extra leap day counted when the month is past February of a leap year. -/
def leapAdj (y m : Int) : Int :=
  if 2 < m ∧ isLeapYear y then 1 else 0

/-- Proleptic-Gregorian ordinal of a calendar date, exactly
`datetime.date(y, m, d).toordinal()` (0001-01-01 is ordinal 1). -/
def toOrd (y m d : Int) : Int :=
  365 * (y - 1) + (y - 1) / 4 - (y - 1) / 100 + (y - 1) / 400
    + daysBeforeMonthTbl m + leapAdj y m + d

/-- Length of month `m` of year `y`. -/
def daysInMonth (y m : Int) : Int :=
  if m = 2 then (if isLeapYear y then 29 else 28)
  else if m = 4 ∨ m = 6 ∨ m = 9 ∨ m = 11 then 30 else 31

/-- A calendar date as year / month / day, the representation
`datetime.date` exposes (`.year`, `.month`, `.day`, `.replace`). -/
structure PyDate where
  y : Int
  m : Int
  d : Int
deriving DecidableEq

/-- The `datetime.date` range invariant (years 1..9999, valid month/day). -/
def PyDate.Valid (t : PyDate) : Prop :=
  1 ≤ t.y ∧ t.y ≤ 9999 ∧ 1 ≤ t.m ∧ t.m ≤ 12 ∧ 1 ≤ t.d ∧ t.d ≤ daysInMonth t.y t.m

instance (t : PyDate) : Decidable t.Valid := by
  unfold PyDate.Valid; infer_instance

/-- Ordinal of a `PyDate`. -/
def PyDate.ord (t : PyDate) : Int := toOrd t.y t.m t.d

/-- Checked date subtraction `date - timedelta(days := k)` for the
subtractions the code performs (`k ≥ 0` at every modelled call site, so
only the `date.min` bound can be crossed): `none` models the
`OverflowError` Python raises when the result would precede 0001-01-01. -/
def csub (o k : Int) : Option Int :=
  if 1 ≤ o - k then some (o - k) else none

/-- Inverse of `toOrd` (civil-from-days); used only to print dates. -/
def fromOrd (o : Int) : Int × Int × Int :=
  let z := o + 305
  let era := z / 146097
  let doe := z - era * 146097
  let yoe := (doe - doe / 1460 + doe / 36524 - doe / 146096) / 365
  let y := yoe + era * 400
  let doy := doe - (365 * yoe + yoe / 4 - yoe / 100)
  let mp := (5 * doy + 2) / 153
  let d := doy - (153 * mp + 2) / 5 + 1
  let m := if mp < 10 then mp + 3 else mp - 9
  (if m ≤ 2 then y + 1 else y, m, d)

/-- `strftime('%Y-%m-%d')` on an ordinal (months and days zero-padded). -/
def fmtOrd (o : Int) : String :=
  let ymd := fromOrd o
  Int.repr ymd.1 ++ "-" ++ padNat 2 ymd.2.1.toNat ++ "-" ++ padNat 2 ymd.2.2.toNat

example : toOrd 2026 10 12 = 739901 := by decide
example : fromOrd 739901 = (2026, 10, 12) := by decide
example : fmtOrd 739895 = "2026-10-06" := by decide

/-! ## QueryParser (src/modules/query_parser.py)

All parsers take the query as `List Char`.  Keyword tables are lists in
the insertion order of the corresponding Python dicts (Python 3.7+ dicts
iterate in insertion order).
-/

/-- METRIC_KEYWORDS, in dict order. -/
def METRIC_KEYWORDS : List (String × String) :=
  [("セッション数", "sessions"), ("セッション", "sessions"),
   ("ユーザー数", "totalUsers"), ("ユーザー", "totalUsers"),
   ("ページビュー", "screenPageViews"), ("PV", "screenPageViews"),
   ("直帰率", "bounceRate"),
   ("平均セッション時間", "averageSessionDuration"),
   ("セッション時間", "averageSessionDuration"),
   ("コンバージョン数", "conversions"), ("コンバージョン", "conversions"),
   ("イベント数", "eventCount"), ("イベント", "eventCount")]

/-- DIMENSION_KEYWORDS, in dict order. -/
def DIMENSION_KEYWORDS : List (String × String) :=
  [("流入元", "sessionSource"), ("ソース", "sessionSource"),
   ("チャネル", "sessionDefaultChannelGroup"), ("デバイス", "deviceCategory"),
   ("ページ", "pagePath"), ("地域", "country"), ("ブラウザ", "browser"),
   ("UTM", "sessionCampaignName"), ("キャンペーン", "sessionCampaignName")]

/-- First table entry whose keyword occurs as a substring of the query. -/
def firstKeywordHit (tbl : List (String × String)) (l : List Char) : Option String :=
  match tbl with
  | [] => none
  | (kw, v) :: rest =>
    if containsSeq kw.toList l then some v else firstKeywordHit rest l

/-- QueryParser.parse_metric. -/
def parseMetricL (l : List Char) : Option String := firstKeywordHit METRIC_KEYWORDS l

/-- QueryParser.parse_dimension. -/
def parseDimensionL (l : List Char) : Option String := firstKeywordHit DIMENSION_KEYWORDS l

/-- QueryParser.parse_ranking: RANKING_KEYWORDS in dict order; the
"worst/bottom" handlers return a tagged negative value whose absolute
value is taken, so the extractor yields the plain size in every case. -/
def parseRankingL (l : List Char) : Option Nat :=
  match scanNum "トップ".toList [] l with
  | some n => some n
  | none =>
    match scanNum "上位".toList [] l with
    | some n => some n
    | none =>
      match scanNum "ワースト".toList [] l with
      | some n => some n
      | none => scanNum "下位".toList [] l

/-- QueryParser.parse_comparison: COMPARISON_KEYWORDS membership. -/
def parseComparisonL (l : List Char) : Bool :=
  containsSeq "比較".toList l || containsSeq "比べ".toList l || containsSeq "対比".toList l

/-- Outcome of the PERIOD_PATTERNS scan: which handler fires, with the
extracted day count for the numeric patterns. -/
inductive PeriodSpec where
  | days (n : Nat)
  | weekCur
  | weekPrev
  | monthCur
  | monthPrev
deriving DecidableEq

/-- PERIOD_PATTERNS in dict order, first `re.search` hit wins.  The three
trailing literal patterns (過去30日間 / 過去7日間 / 過去90日間) are dead:
any text containing them already matches the first numeric pattern; they
are kept for faithfulness. -/
def findPeriod (l : List Char) : Option PeriodSpec :=
  match scanNum "過去".toList "日間".toList l with
  | some n => some (.days n)
  | none =>
  match scanNum "過去".toList "日".toList l with
  | some n => some (.days n)
  | none =>
  match scanNum [] "日間".toList l with
  | some n => some (.days n)
  | none =>
  match scanNum [] "日".toList l with
  | some n => some (.days n)
  | none =>
  if containsSeq "今週".toList l then some .weekCur
  else if containsSeq "先週".toList l then some .weekPrev
  else if containsSeq "今月".toList l then some .monthCur
  else if containsSeq "先月".toList l then some .monthPrev
  else if containsSeq "過去30日間".toList l then some (.days 30)
  else if containsSeq "過去7日間".toList l then some (.days 7)
  else if containsSeq "過去90日間".toList l then some (.days 90)
  else none

/-- Handler bodies of parse_period, on ordinals.  `today.weekday()` is
`(ord - 1) % 7` (0001-01-01 was a Monday); the previous-month branch
computes `first_of_this_month - 1 day` and its `.replace(day=1)`, which is
the first day of the previous calendar month. -/
def runPeriod (t : PyDate) : PeriodSpec → Option (Int × Int)
  | .days n =>
    match csub t.ord (max 1 (n : Int) - 1) with
    | some s => some (s, t.ord)
    | none => none
  | .weekCur =>
    match csub t.ord ((t.ord - 1) % 7) with
    | some s => some (s, t.ord)
    | none => none
  | .weekPrev =>
    match csub t.ord ((t.ord - 1) % 7 + 1) with
    | some e =>
      match csub e 6 with
      | some s => some (s, e)
      | none => none
    | none => none
  | .monthCur => some (toOrd t.y t.m 1, t.ord)
  | .monthPrev =>
    match csub (toOrd t.y t.m 1) 1 with
    | some e =>
      some (if t.m = 1 then toOrd (t.y - 1) 12 1 else toOrd t.y (t.m - 1) 1, e)
    | none => none

/-- QueryParser.parse_period: pattern scan, then the matched handler (an
`OverflowError` inside a handler aborts the whole call: `none`), with the
last-7-days fallback when nothing matches. -/
def parsePeriodL (t : PyDate) (l : List Char) : Option (Int × Int) :=
  match findPeriod l with
  | some spec => runPeriod t spec
  | none =>
    match csub t.ord 6 with
    | some s => some (s, t.ord)
    | none => none

/-- The dict QueryParser.parse_query builds.  `period` is an `Option`
because is_valid_query tests it against `None` (parse_period, when it
returns at all, always supplies a pair). -/
structure ParsedQuery where
  period : Option (Int × Int)
  metric : Option String
  dimension : Option String
  ranking : Option Nat
  comparison : Bool
  originalQuery : List Char
deriving DecidableEq

/-- QueryParser.parse_query; `none` when parse_period raises. -/
def parseQueryL (t : PyDate) (l : List Char) : Option ParsedQuery :=
  match parsePeriodL t l with
  | some per =>
    some { period := some per, metric := parseMetricL l,
           dimension := parseDimensionL l, ranking := parseRankingL l,
           comparison := parseComparisonL l, originalQuery := l }
  | none => none

/-- QueryParser.is_valid_query: the period must not be `None`. -/
def isValidQuery (p : ParsedQuery) : Bool := p.period.isSome

/-- Python truthiness of an optional string (`None` and `""` are falsy). -/
def strTruthy : Option String → Bool
  | none => false
  | some s => !(s == "")

/-- Python truthiness of an optional integer (`None` and `0` are falsy). -/
def natTruthy : Option Nat → Bool
  | none => false
  | some n => !(n == 0)

/-- The five query types of QueryParser.get_query_type. -/
inductive QueryType where
  | comparison
  | ranking
  | dimensionMetric
  | metricOnly
  | general
deriving DecidableEq

/-- QueryParser.get_query_type: an if/elif chain on dict truthiness. -/
def getQueryType (p : ParsedQuery) : QueryType :=
  if p.comparison then .comparison
  else if natTruthy p.ranking then .ranking
  else if strTruthy p.dimension && strTruthy p.metric then .dimensionMetric
  else if strTruthy p.metric then .metricOnly
  else .general

/-! ## DataProcessor (src/modules/data_processor.py) -/

/-- Return value of DataProcessor.calculate_comparison. -/
structure ComparisonResult where
  change : ℚ
  changePercent : ℚ
  isPositive : Bool
deriving DecidableEq

/-- DataProcessor.calculate_comparison.  The `pd.isna(previous)` guard
cannot fire over `ℚ` (no NaN), leaving the `previous == 0` guard. -/
def calcComparison (current previous : ℚ) : ComparisonResult :=
  if previous = 0 then
    { change := current, changePercent := 0, isPositive := decide (0 ≤ current) }
  else
    { change := current - previous,
      changePercent := (current - previous) / previous * 100,
      isPositive := decide (0 ≤ current - previous) }

/-! ## chat_view helpers (src/components/chat_view.py) -/

/-- chat_view._calculate_previous_period on ordinals (the
strptime/strftime round-trip through "%Y-%m-%d" strings is the identity on
valid dates): `period_days = end - start + 1`, `prev_end = start - 1`,
`prev_start = prev_end - (period_days - 1)`. -/
def calcPrevPeriod (s e : Int) : Option (Int × Int) :=
  match csub s 1 with
  | some pe =>
    match csub pe (e - s + 1 - 1) with
    | some ps => some (ps, pe)
    | none => none
  | none => none

/-- EVENT_ALIAS_MAP (src/utils/config.py), in dict order. -/
def EVENT_ALIAS_MAP : List (String × String) :=
  [("資料請求", "CV_資料請求"),
   ("営業特別イベント予約", "CV_営業特別イベント予約"),
   ("特別イベント予約", "CV_営業特別イベント予約"),
   ("マーケティングイベント予約", "CV_マーケティングイベント予約"),
   ("カウンセリング予約", "CV_カウンセリング予約"),
   ("オンラインセミナー予約", "CV_オンラインセミナー予約"),
   ("オンラインセミナー", "CV_オンラインセミナー予約"),
   ("オンライン体験予約", "CV_オンライン体験予約"),
   ("オンライン体験", "CV_オンライン体験予約"),
   ("説明会動画", "CV_説明会動画"),
   ("単位診断", "CV_単位診断"),
   ("問合せ", "CV_問合せ"),
   ("問い合わせ", "CV_問合せ"),
   ("海外カウンセリング", "CV_海外カウンセリング")]

/-- EVENT_DISPLAY_MAP (src/utils/config.py). -/
def EVENT_DISPLAY_MAP : List (String × String) :=
  [("CV_資料請求", "資料請求"),
   ("CV_営業特別イベント予約", "営業特別イベント予約"),
   ("CV_マーケティングイベント予約", "マーケティングイベント予約"),
   ("CV_カウンセリング予約", "カウンセリング予約"),
   ("CV_オンラインセミナー予約", "オンラインセミナー予約"),
   ("CV_オンライン体験予約", "オンライン体験予約"),
   ("CV_説明会動画", "説明会動画"),
   ("CV_単位診断", "単位診断"),
   ("CV_問合せ", "問合せ"),
   ("CV_海外カウンセリング", "海外カウンセリング")]

/-- First alias of an alias table that occurs in the text. -/
def detectFirstAlias (tbl : List (String × String)) (l : List Char) : Option String :=
  match tbl with
  | [] => none
  | (al, ev) :: rest =>
    if containsSeq al.toList l then some ev else detectFirstAlias rest l

/-- chat_view._detect_event_from_query. -/
def detectEventL (l : List Char) : Option String := detectFirstAlias EVENT_ALIAS_MAP l

/-- config.get_event_display_name. -/
def getEventDisplayName (ev : String) : String :=
  match EVENT_DISPLAY_MAP.find? (fun p => p.1 == ev) with
  | some p => p.2
  | none => ev

/-- Modelled from the spec: the metric catalog tables `metric_labels`,
`rate_metrics`, `duration_metrics` and `non_sum_metrics` are referenced by
render_chat_view but defined nowhere under the repository sources; the
spec lists them among the pure catalog-lookup collaborator contracts (§6)
and fixes the formatting classes (§3: count metrics sum and print with a
thousands separator, rate metrics average and print ×100 with a percent
sign, duration metrics average and print as minutes:seconds).  Labels are
taken from the repository's own GA4_METRIC_OPTIONS catalog. -/
def metricLabels : List (String × String) :=
  [("sessions", "セッション数"), ("totalUsers", "ユーザー数"),
   ("screenPageViews", "ページビュー"), ("eventCount", "イベント数"),
   ("conversions", "コンバージョン数"), ("bounceRate", "直帰率"),
   ("averageSessionDuration", "平均セッション時間")]

/-- Modelled from the spec: the rate-class metrics (mean aggregation,
percent display). -/
def rateMetrics : List String := ["bounceRate"]

/-- Modelled from the spec: the duration-class metrics (mean aggregation,
minutes:seconds display). -/
def durationMetrics : List String := ["averageSessionDuration"]

/-- Modelled from the spec: metrics aggregated by mean rather than sum. -/
def nonSumMetrics : List String := rateMetrics ++ durationMetrics

/-- metric_labels.get(metric, metric). -/
def metricLabel (m : String) : String :=
  match metricLabels.find? (fun p => p.1 == m) with
  | some p => p.2
  | none => m

/-- metric_labels.get(metric, metric) when the key may be `None`
(Python would interpolate the string "None"). -/
def metricLabelD : Option String → String
  | some m => metricLabel m
  | none => "None"

/-- str(ranking) as interpolated into f-strings (`None` prints "None"). -/
def rankStr : Option Nat → String
  | some n => Nat.repr n
  | none => "None"

/-! ## Collaborator data (GA4 client results, §6 of the spec) -/

/-- One get_traffic_source row: dimensions sessionDefaultChannelGroup,
sessionSource, sessionMedium; metric sessions. -/
structure TrafficRow where
  channel : String
  source : String
  medium : String
  sessions : ℚ
deriving DecidableEq

/-- One get_device_data row: deviceCategory, date; sessions, bounceRate. -/
structure DeviceRow where
  deviceCategory : String
  dateVal : String
  sessions : ℚ
  bounceRate : ℚ
deriving DecidableEq

/-- One get_utm_data row: sessionCampaignName, sessionSource,
sessionMedium; sessions, conversions. -/
structure UtmRow where
  campaign : String
  source : String
  medium : String
  sessions : ℚ
  conversions : ℚ
deriving DecidableEq

/-- One get_page_data row: pagePath; sessions, screenPageViews,
bounceRate, averageSessionDuration. -/
structure PageRow where
  pagePath : String
  sessions : ℚ
  screenPageViews : ℚ
  bounceRate : ℚ
  averageSessionDuration : ℚ
deriving DecidableEq

/-- The aggregation collaborator for one chat turn: the rows/values each
GA4 client call would return for the query's periods. -/
structure Collab where
  overviewData : List (String × ℚ)
  eventCount : String → String → String → ℚ
  traffic : List TrafficRow
  device : List DeviceRow
  utm : List UtmRow
  page : List PageRow
  daily : List (String × ℚ)

/-- dict.get(k, d) on an association list. -/
def lookupD (l : List (String × ℚ)) (k : String) (d : ℚ) : ℚ :=
  match l.find? (fun p => p.1 == k) with
  | some p => p.2
  | none => d

/-! ## Aggregation (pandas groupby / sort_values / head) -/

/-- Distinct group keys in first-occurrence order.  (pandas groupby sorts
keys, but the subsequent value sort makes the key order observable only
through tie-breaking, which this model does not fix: pandas sort_values
uses an unstable quicksort.) -/
def firstKeys : List (String × ℚ) → List String
  | [] => []
  | (k, _) :: rest => k :: (firstKeys rest).filter (fun k2 => !(k2 == k))

/-- Sum of the values carried by key `k`. -/
def groupSum (k : String) (l : List (String × ℚ)) : ℚ :=
  (l.filter (fun p => p.1 == k)).foldl (fun a p => a + p.2) 0

/-- Number of rows carrying key `k`. -/
def groupCnt (k : String) (l : List (String × ℚ)) : Nat :=
  (l.filter (fun p => p.1 == k)).length

/-- df.groupby(col)[metric].agg('sum' | 'mean') on projected rows. -/
def groupAgg (isMean : Bool) (l : List (String × ℚ)) : List (String × ℚ) :=
  (firstKeys l).map fun k =>
    (k, if isMean then groupSum k l / (groupCnt k l : ℚ) else groupSum k l)

/-- Descending order on aggregated rows (sort_values(ascending=False)). -/
def descRel (a b : String × ℚ) : Prop := b.2 ≤ a.2

instance : DecidableRel descRel := fun a b => by
  unfold descRel; infer_instance

instance : IsTotal (String × ℚ) descRel :=
  ⟨fun a b => le_total b.2 a.2⟩

instance : IsTrans (String × ℚ) descRel :=
  ⟨fun _ _ _ hab hbc => le_trans hbc hab⟩

/-- Aggregate then sort descending by the aggregated value
(chat_view.aggregate_metric without the column guard). -/
def aggSortDesc (isMean : Bool) (l : List (String × ℚ)) : List (String × ℚ) :=
  List.insertionSort descRel (groupAgg isMean l)

/-- chat_view.aggregate_metric: `None` when the metric is not one of the
frame's metric columns, else group, aggregate and sort descending. -/
def aggregateMetric (cols : List String) (mo : Option String)
    (rows : List (String × ℚ)) : Option (List (String × ℚ)) :=
  match mo with
  | none => none
  | some m => if m ∈ cols then some (aggSortDesc (m ∈ nonSumMetrics) rows) else none

/-- df.head(n) where `n` may be Python `None`: `head(None)` is
`iloc[:None]`, i.e. every row. -/
def pandasHead (r : Option Nat) (l : List (String × ℚ)) : List (String × ℚ) :=
  match r with
  | none => l
  | some n => l.take n

/-- pandas round-half-to-even at two decimals. -/
def pyRound2 (x : ℚ) : ℚ := (roundHalfEven (x * 100) : ℚ) / 100

/-- chat_view.prepare_display: unit conversion for rate (×100) and
duration (÷60) metrics, rounding for the mean-aggregated ones.  Returns
the displayed rows and the y-axis label. -/
def prepareDisplay (mo : Option String) (l : List (String × ℚ)) :
    List (String × ℚ) × String :=
  let m := mo.getD ""
  let lbl := metricLabelD mo
  let l1 :=
    if m ∈ rateMetrics then l.map (fun p => (p.1, p.2 * 100))
    else if m ∈ durationMetrics then l.map (fun p => (p.1, p.2 / 60))
    else l
  let lbl1 :=
    if m ∈ rateMetrics then lbl ++ "（%）"
    else if m ∈ durationMetrics then lbl ++ "（分）"
    else lbl
  let l2 := if m ∈ nonSumMetrics then l1.map (fun p => (p.1, pyRound2 p.2)) else l1
  (l2, lbl1)

/-! ## Response messages -/

/-- The tabular payload an assistant message can carry. -/
inductive TableData where
  | event (rows : List (String × Int))
  | dim (rows : List (String × ℚ))
  | metricsOverview (m : List (String × ℚ))
deriving DecidableEq

/-- One assistant turn: text plus optional table and graph payloads (the
graph is opaque to the core; only its title is modelled). -/
structure ResponseMsg where
  text : String
  table : Option TableData
  graph : Option String
deriving DecidableEq

/-- Number of rows of the attached table, if any. -/
def respTableLen (r : ResponseMsg) : Option Nat :=
  match r.table with
  | some (.event l) => some l.length
  | some (.dim l) => some l.length
  | some (.metricsOverview l) => some l.length
  | none => none

/-- Clarification text of the unreachable invalid-query branch. -/
def clarifyText : String := "申し訳ございません。質問を理解できませんでした。期間を指定してください。"

/-- Catch-all text of the turn's exception handler (the interpolated
`str(e)` reason is abstracted away; no claim depends on it). -/
def errorText : String := "エラーが発生しました: OverflowError"

/-! ## The chat turn branches -/

/-- Event-alias branch of render_chat_view: current versus previous
period counts of the detected conversion event. -/
def eventTurn (c : Collab) (st en : String) (s e : Int) (ev : String) : ResponseMsg :=
  match calcPrevPeriod s e with
  | none => ⟨errorText, none, none⟩
  | some (ps, pe) =>
    let pst := fmtOrd ps
    let pen := fmtOrd pe
    let cur := c.eventCount st en ev
    let prev := c.eventCount pst pen ev
    let diff := cur - prev
    let diffPct : ℚ := if prev ≠ 0 then diff / prev * 100 else 0
    let dn := getEventDisplayName ev
    let base := st ++ "から" ++ en ++ "までの" ++ dn ++ "件数は " ++
      commaSep (pyInt cur) ++ " 件です。"
    let text :=
      if prev ≠ 0 then
        let sign := if 0 ≤ diff then "+" else ""
        base ++ " 前期間（" ++ pst ++ "〜" ++ pen ++ "）は " ++
          commaSep (pyInt prev) ++ " 件で、差は " ++ sign ++ commaSep (pyInt diff) ++
          " 件（" ++ sign ++ fmt1 diffPct ++ "%）でした。"
      else base
    ⟨text,
     some (.event [(st ++ "〜" ++ en, pyInt cur), (pst ++ "〜" ++ pen, pyInt prev)]),
     none⟩

/-- metric_only branch: fetch the overview aggregate and format it per
the metric's class;  the else-branch text is returned for a falsy metric
(which the classifier in fact rules out). -/
def metricOnlyMsg (st en : String) (mo : Option String) (c : Collab) : ResponseMsg :=
  match mo with
  | none => ⟨"指標を特定できませんでした。", none, none⟩
  | some m =>
    if m = "" then ⟨"指標を特定できませんでした。", none, none⟩
    else
      let v := lookupD c.overviewData m 0
      let lbl := metricLabel m
      if m ∈ rateMetrics then
        ⟨st ++ "から" ++ en ++ "までの" ++ lbl ++ "は " ++ fmt2 (v * 100) ++ "% です。",
         none, none⟩
      else if m ∈ durationMetrics then
        let mins := Int.floor (v / 60)
        let secs := Int.floor (v - 60 * (Int.floor (v / 60) : ℚ))
        ⟨st ++ "から" ++ en ++ "までの" ++ lbl ++ "は " ++ Int.repr mins ++ "分" ++
          Int.repr secs ++ "秒 です。", none, none⟩
      else
        ⟨st ++ "から" ++ en ++ "までの" ++ lbl ++ "は " ++
          commaSep (pyInt v) ++ " です。", none, none⟩

/-- Shared tail of the dimension_metric sub-branches: aggregate, truncate
(except for the device branch, which never calls head), display. -/
def dimBranchCore (cols : List String) (mo : Option String) (ranking : Option Nat)
    (useHead : Bool) (rows : List (String × ℚ)) (prefixLbl : String)
    (withTop : Bool) (axisLbl : String) : ResponseMsg :=
  match aggregateMetric cols mo rows with
  | none => ⟨metricLabelD mo ++ "には対応していません。", none, none⟩
  | some summary =>
    let cut := if useHead then pandasHead ranking summary else summary
    let disp := (prepareDisplay mo cut).1
    let text :=
      if withTop then
        prefixLbl ++ metricLabelD mo ++ "のトップ" ++ rankStr ranking ++ "は以下の通りです。"
      else prefixLbl ++ metricLabelD mo ++ "は以下の通りです。"
    ⟨text, some (.dim disp), some (prefixLbl ++ metricLabelD mo ++ "・" ++ axisLbl)⟩

/-- dimension_metric branch of render_chat_view, dispatching on the
extracted dimension key. -/
def dimMetricMsg (p : ParsedQuery) (c : Collab) : ResponseMsg :=
  let mo := p.metric
  let ranking := p.ranking
  match p.dimension with
  | some d =>
    if d = "sessionSource" then
      if c.traffic.isEmpty then ⟨"データがありません。", none, none⟩
      else dimBranchCore ["sessions"] mo ranking true
        (c.traffic.map fun r => (r.source, r.sessions)) "流入元別" true "流入元"
    else if d = "sessionDefaultChannelGroup" then
      if c.traffic.isEmpty then ⟨"データがありません。", none, none⟩
      else dimBranchCore ["sessions"] mo ranking true
        (c.traffic.map fun r => (r.channel, r.sessions)) "チャネル別" false "チャネル"
    else if d = "deviceCategory" then
      if c.device.isEmpty then ⟨"データがありません。", none, none⟩
      else dimBranchCore ["sessions", "bounceRate"] mo ranking false
        (c.device.map fun r =>
          (r.deviceCategory, if mo.getD "" = "bounceRate" then r.bounceRate else r.sessions))
        "デバイス別" false "デバイス"
    else if d = "sessionCampaignName" then
      if c.utm.isEmpty then ⟨"データがありません。", none, none⟩
      else dimBranchCore ["sessions", "conversions"] mo ranking true
        (c.utm.map fun r =>
          (r.campaign, if mo.getD "" = "conversions" then r.conversions else r.sessions))
        "キャンペーン別" false "キャンペーン"
    else if d = "pagePath" then
      if c.page.isEmpty then ⟨"データがありません。", none, none⟩
      else dimBranchCore
        ["sessions", "screenPageViews", "bounceRate", "averageSessionDuration"] mo ranking true
        (c.page.map fun r =>
          (r.pagePath,
            if mo.getD "" = "screenPageViews" then r.screenPageViews
            else if mo.getD "" = "bounceRate" then r.bounceRate
            else if mo.getD "" = "averageSessionDuration" then r.averageSessionDuration
            else r.sessions))
        "ページ別" false "ページ"
    else ⟨"ディメンション '" ++ d ++ "' にはまだ対応していません。", none, none⟩
  | none => ⟨"ディメンション 'None' にはまだ対応していません。", none, none⟩

/-- ranking branch of render_chat_view: only the source dimension (or a
falsy dimension) is implemented, always ranked by sessions. -/
def rankingMsg (c : Collab) (p : ParsedQuery) : ResponseMsg :=
  if p.dimension == some "sessionSource" || !(strTruthy p.dimension) then
    if c.traffic.isEmpty then ⟨"データがありません。", none, none⟩
    else
      let summary := pandasHead p.ranking
        (aggSortDesc false (c.traffic.map fun r => (r.source, r.sessions)))
      ⟨"流入元トップ" ++ rankStr p.ranking ++ "は以下の通りです。",
       some (.dim summary), some ("流入元トップ" ++ rankStr p.ranking)⟩
  else ⟨"このランキングにはまだ対応していません。", none, none⟩

/-- general branch: overview text, plus daily-traffic graph and overview
table when the daily series is non-empty. -/
def generalMsg (st en : String) (c : Collab) : ResponseMsg :=
  let base := st ++ "から" ++ en ++ "までの概要データです。"
  if c.daily.isEmpty then ⟨base, none, none⟩
  else
    ⟨base,
     some (.metricsOverview
       (["sessions", "totalUsers", "screenPageViews", "bounceRate",
         "averageSessionDuration"].map fun k => (k, lookupD c.overviewData k 0))),
     some "日別トラフィック"⟩

/-- Dispatch of one parsed turn: the event-alias path preempts the
classifier-based dispatch. -/
def chatDispatch (l : List Char) (c : Collab) (p : ParsedQuery) (s e : Int) : ResponseMsg :=
  let st := fmtOrd s
  let en := fmtOrd e
  match detectEventL l with
  | some ev => eventTurn c st en s e ev
  | none =>
    match getQueryType p with
    | .metricOnly => metricOnlyMsg st en p.metric c
    | .dimensionMetric => dimMetricMsg p c
    | .ranking => rankingMsg c p
    | .comparison => ⟨"比較機能は現在開発中です。", none, none⟩
    | .general => generalMsg st en c

/-- One full chat turn of render_chat_view for an entered query: parse
(outside the try block, so a parser exception yields no assistant message
at all: `none`), validity guard, then dispatch. -/
def chatTurn (t : PyDate) (q : String) (c : Collab) : Option ResponseMsg :=
  match parseQueryL t q.toList with
  | none => none
  | some p =>
    some
      (if isValidQuery p then
        match p.period with
        | some (s, e) => chatDispatch q.toList c p s e
        | none => ⟨clarifyText, none, none⟩
      else ⟨clarifyText, none, none⟩)

/-! ## Concrete fixtures -/

/-- A fixed "today" for the concrete runs: 2026-10-12 (a Monday-based
calendar date well inside the `datetime` range). -/
def today0 : PyDate := ⟨2026, 10, 12⟩

/-- Sample collaborator: overview sessions = 1000, three traffic sources,
constant event count 3. -/
def sampleCollab : Collab :=
  { overviewData :=
      [("sessions", 1000), ("totalUsers", 800), ("screenPageViews", 2500),
       ("bounceRate", (45 : ℚ) / 100), ("averageSessionDuration", 125)],
    eventCount := fun _ _ _ => 3,
    traffic :=
      [⟨"Organic Search", "google", "organic", 400⟩,
       ⟨"Direct", "(direct)", "(none)", 300⟩,
       ⟨"Referral", "bing", "organic", 120⟩],
    device := [], utm := [], page := [],
    daily := [("20261006", 100)] }

/-- Collaborator whose traffic frame has eleven distinct sources. -/
def elevenCollab : Collab :=
  { overviewData := [("sessions", 1000)],
    eventCount := fun _ _ _ => 0,
    traffic :=
      [⟨"Organic Search", "s01", "organic", 110⟩,
       ⟨"Organic Search", "s02", "organic", 100⟩,
       ⟨"Organic Search", "s03", "organic", 90⟩,
       ⟨"Organic Search", "s04", "organic", 80⟩,
       ⟨"Organic Search", "s05", "organic", 70⟩,
       ⟨"Organic Search", "s06", "organic", 60⟩,
       ⟨"Organic Search", "s07", "organic", 50⟩,
       ⟨"Organic Search", "s08", "organic", 40⟩,
       ⟨"Organic Search", "s09", "organic", 30⟩,
       ⟨"Organic Search", "s10", "organic", 20⟩,
       ⟨"Organic Search", "s11", "organic", 10⟩],
    device := [], utm := [], page := [],
    daily := [] }

/-! ## Helper lemmas -/

lemma parseQueryL_inv (t : PyDate) (l : List Char) (p : ParsedQuery)
    (h : parseQueryL t l = some p) :
    ∃ per, parsePeriodL t l = some per ∧
      p = ⟨some per, parseMetricL l, parseDimensionL l, parseRankingL l,
           parseComparisonL l, l⟩ := by
  unfold parseQueryL at h
  cases hper : parsePeriodL t l with
  | none => rw [hper] at h; exact absurd h (by simp)
  | some per =>
    rw [hper] at h
    simp only [Option.some.injEq] at h
    exact ⟨per, rfl, h.symm⟩

lemma chatTurn_eq_dispatch (t : PyDate) (q : String) (c : Collab) (p : ParsedQuery)
    (h : parseQueryL t q.toList = some p) :
    ∃ s e, p.period = some (s, e) ∧
      chatTurn t q c = some (chatDispatch q.toList c p s e) := by
  obtain ⟨per, hper, rfl⟩ := parseQueryL_inv t q.toList p h
  refine ⟨per.1, per.2, rfl, ?_⟩
  unfold chatTurn
  rw [h]
  rfl

lemma chatDispatch_byType (l : List Char) (c : Collab) (p : ParsedQuery) (s e : Int)
    (hev : detectEventL l = none) :
    chatDispatch l c p s e =
      (match getQueryType p with
        | .metricOnly => metricOnlyMsg (fmtOrd s) (fmtOrd e) p.metric c
        | .dimensionMetric => dimMetricMsg p c
        | .ranking => rankingMsg c p
        | .comparison => ⟨"比較機能は現在開発中です。", none, none⟩
        | .general => generalMsg (fmtOrd s) (fmtOrd e) c) := by
  unfold chatDispatch
  rw [hev]

lemma dimensionMetric_ranking_falsy (p : ParsedQuery)
    (h : getQueryType p = .dimensionMetric) :
    p.ranking = none ∨ p.ranking = some 0 := by
  unfold getQueryType at h
  by_cases h1 : p.comparison
  · simp [h1] at h
  · by_cases h2 : natTruthy p.ranking
    · simp [h1, h2] at h
    · cases hr : p.ranking with
      | none => exact Or.inl rfl
      | some n =>
        rw [hr] at h2
        have hn : n = 0 := by
          by_contra hn
          exact h2 (by simp [natTruthy, hn])
        exact Or.inr (by rw [hn])

lemma metricOnly_truthy (p : ParsedQuery) (h : getQueryType p = .metricOnly) :
    ∃ m, p.metric = some m ∧ m ≠ "" := by
  unfold getQueryType at h
  by_cases h1 : p.comparison
  · simp [h1] at h
  · by_cases h2 : natTruthy p.ranking
    · simp [h1, h2] at h
    · by_cases h3 : strTruthy p.dimension && strTruthy p.metric
      · simp [h1, h2, h3] at h
      · by_cases h4 : strTruthy p.metric
        · cases hm : p.metric with
          | none => rw [hm] at h4; simp [strTruthy] at h4
          | some m =>
            refine ⟨m, rfl, ?_⟩
            rw [hm] at h4
            simpa [strTruthy] using h4
        · simp [h1, h2, h3, h4] at h

lemma aggSortDesc_sorted (b : Bool) (l : List (String × ℚ)) :
    List.Sorted descRel (aggSortDesc b l) :=
  List.sorted_insertionSort descRel _

lemma pandasHead_sorted (r : Option Nat) (l : List (String × ℚ))
    (h : List.Sorted descRel l) : List.Sorted descRel (pandasHead r l) := by
  cases r with
  | none => exact h
  | some n => exact List.Pairwise.sublist (List.take_sublist n l) h

lemma aggregateMetric_sorted (cols : List String) (mo : Option String)
    (rows out : List (String × ℚ)) (h : aggregateMetric cols mo rows = some out) :
    List.Sorted descRel out := by
  cases mo with
  | none => simp [aggregateMetric] at h
  | some m =>
    simp only [aggregateMetric] at h
    split at h
    · simp only [Option.some.injEq] at h
      rw [← h]
      exact aggSortDesc_sorted _ _
    · simp at h

lemma detectFirstAlias_of_match (tbl : List (String × String)) (l : List Char) :
    ∀ i a e, tbl.get? i = some (a, e) → containsSeq a.toList l = true →
    ∃ j b e2, j ≤ i ∧ tbl.get? j = some (b, e2) ∧ containsSeq b.toList l = true ∧
      detectFirstAlias tbl l = some e2 := by
  induction tbl with
  | nil => intro i a e h; simp at h
  | cons hd rest ih =>
    obtain ⟨a1, e1⟩ := hd
    intro i a e hget hmatch
    by_cases hh : containsSeq a1.toList l = true
    · have hh2 : containsSeq a1.data l = true := hh
      exact ⟨0, a1, e1, Nat.zero_le _, rfl, hh, by simp [detectFirstAlias, hh2]⟩
    · have hh2 : containsSeq a1.data l = false := by
        have := hh
        exact Bool.not_eq_true _ ▸ (by simpa using hh)
      cases i with
      | zero =>
        simp only [List.get?] at hget
        have hae : a1 = a ∧ e1 = e := by
          have := hget
          simp only [Option.some.injEq, Prod.mk.injEq] at this
          exact this
        exact absurd (hae.1 ▸ hmatch) hh
      | succ i' =>
        obtain ⟨j, b, e2, hj, hg, hm, hdet⟩ := ih i' a e (by simpa using hget) hmatch
        refine ⟨j + 1, b, e2, by omega, by simpa using hg, hm, ?_⟩
        simp [detectFirstAlias, hh2]
        exact hdet

/-! ## Claim theorems -/

/-- C6: DataProcessor.calculate_comparison computes `delta = current -
previous` for all inputs, `delta_percent = (delta / previous) * 100` when
`previous ≠ 0`, and `delta_percent = 0` when `previous = 0` (the
division-by-zero guard, not an error); in particular
`(120, 100) ↦ (20, 20.0)` and `(50, 0) ↦ (50, 0)`. -/
theorem calculate_comparison_spec :
    (∀ c p : ℚ, (calcComparison c p).change = c - p ∧
      (p ≠ 0 → (calcComparison c p).changePercent = (c - p) / p * 100) ∧
      (p = 0 → (calcComparison c p).changePercent = 0)) ∧
    calcComparison 120 100 = ⟨20, 20, true⟩ ∧
    calcComparison 50 0 = ⟨50, 0, true⟩ := by
  refine ⟨fun c p => ?_, by with_unfolding_all decide, by with_unfolding_all decide⟩
  unfold calcComparison
  by_cases hp : p = 0
  · simp [hp]
  · simp [hp]

/-- Witness for C6 at the claim's concrete inputs. -/
theorem calculate_comparison_spec_witness :
    (calcComparison 120 100).changePercent = (120 - 100) / 100 * 100 ∧
    (calcComparison 50 0).changePercent = 0 :=
  ⟨(calculate_comparison_spec.1 120 100).2.1 (by norm_num),
   (calculate_comparison_spec.1 50 0).2.2 rfl⟩

/-- C7 counterexample: the period 0001-01-01 .. 2026-10-12 — produced by
the resolver itself on 過去739901日間 with today = 2026-10-12, and then
fed to _calculate_previous_period by the event-alias path — has no
computed previous period at all: `start_dt - timedelta(days=1)` at
chat_view.py line 62 would precede date.min and raises OverflowError.
This refutes the claim for *every* period, at a period reachable with a
real system clock. -/
theorem previous_period_overflow_cex :
    parsePeriodL today0 "過去739901日間".toList = some (1, 739901) ∧
    calcPrevPeriod 1 739901 = none :=
  ⟨by decide, by decide⟩

/-- C7 as amended: for every period `[s, e]` of length `L = e - s + 1`,
when `s - L` does not precede 0001-01-01
chat_view._calculate_previous_period returns exactly `[s - L, s - 1]` —
same length `L`, ending the day before `s`, disjoint from the current
period — and when `s - L` precedes 0001-01-01 it raises OverflowError
(returns nothing) instead. -/
theorem previous_period_spec (s e : Int) (hse : s ≤ e) :
    (1 ≤ s - (e - s + 1) →
      calcPrevPeriod s e = some (s - (e - s + 1), s - 1) ∧
      (s - 1) - (s - (e - s + 1)) + 1 = e - s + 1 ∧
      (s - 1) + 1 = s ∧
      (∀ x, s - (e - s + 1) ≤ x → x ≤ s - 1 → x < s)) ∧
    (s - (e - s + 1) < 1 → calcPrevPeriod s e = none) := by
  constructor
  · intro hrep
    have h1 : (1 : Int) ≤ s - 1 := by omega
    have h2 : (1 : Int) ≤ s - 1 - (e - s + 1 - 1) := by omega
    have e1 : csub s 1 = some (s - 1) := by unfold csub; rw [if_pos h1]
    have e2 : csub (s - 1) (e - s + 1 - 1) = some (s - 1 - (e - s + 1 - 1)) := by
      unfold csub; rw [if_pos h2]
    simp only [calcPrevPeriod, e1, e2]
    refine ⟨?_, by omega, by omega, fun x hx1 hx2 => by omega⟩
    rw [show s - 1 - (e - s + 1 - 1) = s - (e - s + 1) from by omega]
  · intro hlow
    by_cases h1 : (1 : Int) ≤ s - 1
    · have e1 : csub s 1 = some (s - 1) := by unfold csub; rw [if_pos h1]
      have e2 : csub (s - 1) (e - s + 1 - 1) = none := by
        unfold csub; rw [if_neg (by omega)]
      simp only [calcPrevPeriod, e1, e2]
    · have e1 : csub s 1 = none := by unfold csub; rw [if_neg (by omega)]
      simp only [calcPrevPeriod, e1]

/-- Witness for C7 at the concrete period 2026-10-06 .. 2026-10-12. -/
theorem previous_period_spec_witness :
    calcPrevPeriod 739895 739901 = some (739888, 739894) := by
  have h := ((previous_period_spec 739895 739901 (by omega)).1 (by omega)).1
  norm_num at h
  exact h

/-- C10 counterexample: parse_query does not return a dict at all on this
input — the day-count pattern matches and the date subtraction raises
OverflowError before is_valid_query could run — so
"is_valid_query(parse_query(q)) returns True for every input string q"
fails at q = 過去3000000日間. -/
theorem parse_query_overflow_cex :
    parseQueryL today0 "過去3000000日間".toList = none := by decide

/-- C10 as amended: whenever parse_query does return a parsed dict,
is_valid_query of it is True (the period key is always populated by the
resolver), so the chat handler's clarification branch is unreachable. -/
theorem is_valid_query_spec (t : PyDate) (l : List Char) (p : ParsedQuery)
    (h : parseQueryL t l = some p) : isValidQuery p = true := by
  obtain ⟨per, _, rfl⟩ := parseQueryL_inv t l p h
  rfl

/-- Witness for C10 on a patternless query resolved by the fallback. -/
theorem is_valid_query_spec_witness :
    isValidQuery ⟨some (739895, 739901), none, none, none, false,
      "こんにちは".toList⟩ = true :=
  is_valid_query_spec today0 "こんにちは".toList _ (by decide)

/-- C3 counterexample: the query 流入元セッション数トップ0 parses with
comparison false and ranking = 0 — which is *not null* — yet the
classifier returns DimensionMetric, because get_query_type tests Python
truthiness (`0` is falsy), not nullness.  This refutes "if comparison is
false and the extracted ranking is not null then the classifier returns
Ranking". -/
theorem classifier_zero_ranking_cex :
    (parseQueryL today0 "流入元セッション数トップ0".toList).map
      (fun p => (p.comparison, p.ranking, getQueryType p)) =
      some (false, some 0, .dimensionMetric) := by decide

/-- C3 as amended: for every parsed result with comparison false and a
*nonzero* extracted ranking, the classifier returns Ranking (a ranking of
0 is falsy and falls through to the dimension/metric rules). -/
theorem classifier_ranking_precedence (p : ParsedQuery)
    (hc : p.comparison = false) (n : Nat) (hr : p.ranking = some n)
    (hn : n ≠ 0) : getQueryType p = .ranking := by
  unfold getQueryType
  rw [hc, hr]
  simp [natTruthy, hn]

/-- Witness for C3 at the claim's own instance: ranking 5 with a source
dimension and a count metric classifies as Ranking. -/
theorem classifier_ranking_precedence_witness :
    getQueryType ⟨some (739895, 739901), some "sessions",
      some "sessionSource", some 5, false, []⟩ = .ranking :=
  classifier_ranking_precedence _ rfl 5 rfl (by decide)

/-- C9: event alias resolution returns the canonical id of an alias no
later in the declared table order than any alias matching the text (hence
the first match); concretely, 海外カウンセリング予約の数 matches both
カウンセリング予約 (position 4) and 海外カウンセリング (position 13) and
resolves to the earlier entry's id CV_カウンセリング予約. -/
theorem event_alias_first_match :
    (∀ (l : List Char) i a e, EVENT_ALIAS_MAP.get? i = some (a, e) →
      containsSeq a.toList l = true →
      ∃ j b e2, j ≤ i ∧ EVENT_ALIAS_MAP.get? j = some (b, e2) ∧
        containsSeq b.toList l = true ∧ detectEventL l = some e2) ∧
    detectEventL "海外カウンセリング予約の数".toList = some "CV_カウンセリング予約" :=
  ⟨fun l i a e h1 h2 => detectFirstAlias_of_match EVENT_ALIAS_MAP l i a e h1 h2,
   by decide⟩

/-- Witness for C9: instantiating the first-match property at the later
matching alias 海外カウンセリング (index 13). -/
theorem event_alias_first_match_witness :
    ∃ j b e2, j ≤ 13 ∧ EVENT_ALIAS_MAP.get? j = some (b, e2) ∧
      containsSeq b.toList "海外カウンセリング予約の数".toList = true ∧
      detectEventL "海外カウンセリング予約の数".toList = some e2 :=
  event_alias_first_match.1 _ 13 "海外カウンセリング" "CV_海外カウンセリング"
    (by decide) (by decide)

/-- C2 counterexample: ソース別セッション数 is classified dimension_metric
with no extracted ranking size, and with eleven distinct sources the
attached table has eleven rows — not the claimed default of ten.
`parsed.get('ranking', 10)` never yields 10 because parse_query always
stores the key (possibly as None), and `df.head(None)` keeps every row. -/
theorem dim_metric_no_truncation_cex :
    (parseQueryL today0 "ソース別セッション数".toList).map
      (fun p => (getQueryType p, p.ranking)) = some (.dimensionMetric, none) ∧
    (chatTurn today0 "ソース別セッション数" elevenCollab).map respTableLen =
      some (some 11) :=
  ⟨by decide, by with_unfolding_all decide⟩

/-- C2 as amended: the dimension_metric branch sorts the aggregated rows
descending by aggregated value, but never truncates to a default of 10: a
dimension_metric classification forces the extracted ranking to be None
(head(None) keeps all rows) or 0 (head(0) empties the table). -/
theorem dim_metric_sort_trunc_spec :
    (∀ p, getQueryType p = .dimensionMetric →
      p.ranking = none ∨ p.ranking = some 0) ∧
    (∀ cols mo rows out, aggregateMetric cols mo rows = some out →
      List.Sorted descRel out) ∧
    (∀ p (l : List (String × ℚ)), getQueryType p = .dimensionMetric →
      pandasHead p.ranking l = l ∨ pandasHead p.ranking l = []) := by
  refine ⟨dimensionMetric_ranking_falsy, aggregateMetric_sorted, fun p l h => ?_⟩
  rcases dimensionMetric_ranking_falsy p h with hr | hr <;> rw [hr]
  · exact Or.inl rfl
  · exact Or.inr (List.take_zero l)

/-- Witness for C2 on a concrete dimension_metric parse. -/
theorem dim_metric_sort_trunc_spec_witness :
    (⟨some (739895, 739901), some "sessions", some "sessionSource", none,
      false, []⟩ : ParsedQuery).ranking = none ∨
    (⟨some (739895, 739901), some "sessions", some "sessionSource", none,
      false, []⟩ : ParsedQuery).ranking = some 0 :=
  dim_metric_sort_trunc_spec.1 _ (by decide)

/-- C4 counterexample: a channel-group top-N query (チャネル別トップ5は？,
dimension sessionDefaultChannelGroup, classified Ranking) is answered with
the "not yet supported" message and no table, even with traffic data
available — refuting the claim that the channel-group dimension is served
with a ranked table. -/
theorem ranking_channel_not_supported_cex :
    (parseQueryL today0 "チャネル別トップ5は？".toList).map
      (fun p => (p.dimension, getQueryType p)) =
      some (some "sessionDefaultChannelGroup", .ranking) ∧
    sampleCollab.traffic ≠ [] ∧
    chatTurn today0 "チャネル別トップ5は？" sampleCollab =
      some ⟨"このランキングにはまだ対応していません。", none, none⟩ :=
  ⟨by decide, by decide, by set_option maxRecDepth 4000 in decide⟩

/-- C4 as amended: in the Ranking branch only a source dimension — or no
extracted dimension at all — is answered with the session-ranked table
(sorted descending, truncated to the extracted size); every other
extracted dimension, channel group included, gets the "not yet supported"
message rather than an error; and ranking-classified, alias-free turns do
reach this branch. -/
theorem ranking_dispatch_spec :
    (∀ c p d, p.dimension = some d → d ≠ "sessionSource" → d ≠ "" →
      rankingMsg c p = ⟨"このランキングにはまだ対応していません。", none, none⟩) ∧
    (∀ c p, (p.dimension = none ∨ p.dimension = some "sessionSource") →
      c.traffic ≠ [] →
      rankingMsg c p =
        ⟨"流入元トップ" ++ rankStr p.ranking ++ "は以下の通りです。",
         some (.dim (pandasHead p.ranking
           (aggSortDesc false (c.traffic.map fun r => (r.source, r.sessions))))),
         some ("流入元トップ" ++ rankStr p.ranking)⟩ ∧
      List.Sorted descRel (pandasHead p.ranking
        (aggSortDesc false (c.traffic.map fun r => (r.source, r.sessions))))) ∧
    (∀ t (q : String) c p, parseQueryL t q.toList = some p →
      detectEventL q.toList = none → getQueryType p = .ranking →
      ∃ s e, p.period = some (s, e) ∧ chatTurn t q c = some (rankingMsg c p)) := by
  refine ⟨fun c p d hd h1 h2 => ?_, fun c p hd htr => ?_, fun t q c p hp hev hty => ?_⟩
  · unfold rankingMsg
    rw [if_neg]
    rw [hd]
    simp [strTruthy, h1, h2]
  · have hcond : (p.dimension == some "sessionSource" || !strTruthy p.dimension) = true := by
      rcases hd with h | h <;> simp [h, strTruthy]
    have htr' : c.traffic.isEmpty = false := by
      simpa [List.isEmpty_iff] using htr
    refine ⟨?_, pandasHead_sorted _ _ (aggSortDesc_sorted _ _)⟩
    unfold rankingMsg
    rw [if_pos hcond, if_neg (by simp [htr'])]
  · obtain ⟨s, e, hper, hturn⟩ := chatTurn_eq_dispatch t q c p hp
    refine ⟨s, e, hper, ?_⟩
    rw [hturn, chatDispatch_byType _ _ _ _ _ hev, hty]

/-- Witness for C4: the unsupported-dimension clause at a device-dimension
ranking request. -/
theorem ranking_dispatch_spec_witness :
    rankingMsg sampleCollab ⟨some (739895, 739901), none,
      some "deviceCategory", some 5, false, []⟩ =
      ⟨"このランキングにはまだ対応していません。", none, none⟩ :=
  ranking_dispatch_spec.1 sampleCollab _ "deviceCategory" rfl
    (by decide) (by decide)

set_option maxRecDepth 40000 in
/-- C1 counterexample: 問合せのセッション数は？ is classified metric_only
with the recognized metric sessions and the collaborator reports
sessions = 1000, yet the response is the 問合せ event-comparison answer —
with an attached table and without the formatted value 1,000 — because
event-alias detection preempts the metric-only path. -/
theorem metric_only_event_alias_cex :
    (parseQueryL today0 "問合せのセッション数は？".toList).map
      (fun p => (getQueryType p, p.metric)) = some (.metricOnly, some "sessions") ∧
    lookupD sampleCollab.overviewData "sessions" 0 = 1000 ∧
    (chatTurn today0 "問合せのセッション数は？" sampleCollab).map
      (fun r => (containsSeq "1,000".toList r.text.toList, r.table.isSome)) =
      some (false, true) :=
  ⟨by decide, by with_unfolding_all decide, by with_unfolding_all decide⟩

/-- C1 as amended: the concrete metric-only turn 過去7日間のセッション数は？
with collaborator sessions = 1000 answers with text containing exactly
1,000 and no table or graph payload; and in general every alias-free turn
classified metric_only is answered by the metric-only formatter — count
metrics as a thousands-separated integer, rate metrics ×100 with a percent
sign, duration metrics as minutes and seconds — always with a recognized
(truthy) metric and never with a payload. -/
theorem metric_only_turn_spec :
    ((chatTurn today0 "過去7日間のセッション数は？" sampleCollab).map
        (fun r => (containsSeq "1,000".toList r.text.toList, r.table, r.graph)) =
      some (true, none, none)) ∧
    (∀ t (q : String) c p, parseQueryL t q.toList = some p →
      detectEventL q.toList = none → getQueryType p = .metricOnly →
      ∃ m s e, p.metric = some m ∧ m ≠ "" ∧ p.period = some (s, e) ∧
        chatTurn t q c = some (metricOnlyMsg (fmtOrd s) (fmtOrd e) (some m) c)) ∧
    (∀ st en m c, m ≠ "" →
      (metricOnlyMsg st en (some m) c).table = none ∧
      (metricOnlyMsg st en (some m) c).graph = none ∧
      (metricOnlyMsg st en (some m) c).text =
        (if m ∈ rateMetrics then
          st ++ "から" ++ en ++ "までの" ++ metricLabel m ++ "は " ++
            fmt2 (lookupD c.overviewData m 0 * 100) ++ "% です。"
        else if m ∈ durationMetrics then
          st ++ "から" ++ en ++ "までの" ++ metricLabel m ++ "は " ++
            Int.repr (Int.floor (lookupD c.overviewData m 0 / 60)) ++ "分" ++
            Int.repr (Int.floor (lookupD c.overviewData m 0 -
              60 * (Int.floor (lookupD c.overviewData m 0 / 60) : ℚ))) ++ "秒 です。"
        else
          st ++ "から" ++ en ++ "までの" ++ metricLabel m ++ "は " ++
            commaSep (pyInt (lookupD c.overviewData m 0)) ++ " です。")) := by
  refine ⟨by decide, fun t q c p hp hev hty => ?_, fun st en m c hm => ?_⟩
  · obtain ⟨m, hm, hmne⟩ := metricOnly_truthy p hty
    obtain ⟨s, e, hper, hturn⟩ := chatTurn_eq_dispatch t q c p hp
    refine ⟨m, s, e, hm, hmne, hper, ?_⟩
    rw [hturn, chatDispatch_byType _ _ _ _ _ hev, hty, hm]
  · refine ⟨?_, ?_, ?_⟩ <;>
      (simp only [metricOnlyMsg]; rw [if_neg hm]; split_ifs <;> rfl)

/-! ## Calendar lemmas for the period resolver -/

set_option maxHeartbeats 1000000 in
lemma dbm_nonneg (m : Int) : 0 ≤ daysBeforeMonthTbl m := by
  unfold daysBeforeMonthTbl
  split_ifs <;> decide

lemma leapAdj_bounds (y m : Int) : 0 ≤ leapAdj y m ∧ leapAdj y m ≤ 1 := by
  unfold leapAdj
  split_ifs <;> exact ⟨by decide, by decide⟩

lemma ord_pos (t : PyDate) (ht : t.Valid) : 1 ≤ t.ord := by
  obtain ⟨hy1, _, hm1, hm2, hd1, _⟩ := ht
  have h1 := dbm_nonneg t.m
  have h2 := (leapAdj_bounds t.y t.m).1
  unfold PyDate.ord toOrd
  omega

set_option maxHeartbeats 1000000 in
lemma dbm_succ_ge (m : Int) (h1 : 2 ≤ m) (h2 : m ≤ 12) :
    daysBeforeMonthTbl (m - 1) + 2 ≤ daysBeforeMonthTbl m := by
  interval_cases m <;> decide

lemma prev_month_le (y m : Int) (hy : 1 ≤ y) (hm1 : 1 ≤ m) (hm2 : m ≤ 12)
    (h2 : 2 ≤ toOrd y m 1) :
    (if m = 1 then toOrd (y - 1) 12 1 else toOrd y (m - 1) 1) ≤ toOrd y m 1 - 1 := by
  have d12 : daysBeforeMonthTbl 12 = 334 := by decide
  have d1 : daysBeforeMonthTbl 1 = 0 := by decide
  by_cases hm : m = 1
  · rw [if_pos hm]
    subst hm
    have a1 : leapAdj y 1 = 0 := by
      unfold leapAdj
      rw [if_neg]
      rintro ⟨h, -⟩
      omega
    have hy2 : 2 ≤ y := by
      unfold toOrd at h2
      rw [d1, a1] at h2
      omega
    have hb := leapAdj_bounds (y - 1) 12
    unfold toOrd
    rw [d12, d1, a1]
    omega
  · rw [if_neg hm]
    have hb1 := leapAdj_bounds y (m - 1)
    have hb2 := leapAdj_bounds y m
    have hs := dbm_succ_ge m (by omega) hm2
    unfold toOrd
    omega

lemma csub_eq_some {o k v : Int} (h : csub o k = some v) :
    v = o - k ∧ 1 ≤ o - k := by
  unfold csub at h
  split at h
  · simp only [Option.some.injEq] at h
    omega
  · exact absurd h (by simp)

lemma csub_pos {o k : Int} (h : 1 ≤ o - k) : csub o k = some (o - k) := by
  unfold csub
  rw [if_pos h]

lemma parsePeriodL_eq_run (t : PyDate) (l : List Char) (spec : PeriodSpec)
    (hf : findPeriod l = some spec) : parsePeriodL t l = runPeriod t spec := by
  unfold parsePeriodL
  rw [hf]

lemma parsePeriodL_eq_fallback (t : PyDate) (l : List Char)
    (hf : findPeriod l = none) :
    parsePeriodL t l =
      (match csub t.ord 6 with
        | some s => some (s, t.ord)
        | none => none) := by
  unfold parsePeriodL
  rw [hf]

/-- C5 counterexample: the day-count pattern matches 過去1000000日間 and
the start-date computation falls almost a million days before
date.min, so parse_period raises OverflowError instead of returning a
range — period resolution is not a total function. -/
theorem parse_period_overflow_cex :
    parsePeriodL today0 "過去1000000日間".toList = none := by decide

/-- C5 as amended: whenever parse_period returns, the range satisfies
start ≤ end, and on text matching no period pattern it returns the
last-7-days fallback (today-6, today); but a matched day-count whose
start would precede 0001-01-01 raises OverflowError instead of
returning. -/
theorem parse_period_spec (t : PyDate) (ht : t.Valid) (l : List Char) :
    (∀ s e, parsePeriodL t l = some (s, e) → s ≤ e) ∧
    (findPeriod l = none → 7 ≤ t.ord →
      parsePeriodL t l = some (t.ord - 6, t.ord)) := by
  constructor
  · intro s e h
    cases hf : findPeriod l with
    | none =>
      rw [parsePeriodL_eq_fallback t l hf] at h
      split at h
      · next v hcs =>
          obtain ⟨rfl, hb⟩ := csub_eq_some hcs
          simp only [Option.some.injEq, Prod.mk.injEq] at h
          omega
      · exact absurd h (by simp)
    | some spec =>
      rw [parsePeriodL_eq_run t l spec hf] at h
      cases spec with
      | days n =>
        simp only [runPeriod] at h
        split at h
        · next v hcs =>
            obtain ⟨rfl, hb⟩ := csub_eq_some hcs
            have hmax := le_max_left (1 : Int) (n : Int)
            simp only [Option.some.injEq, Prod.mk.injEq] at h
            omega
        · exact absurd h (by simp)
      | weekCur =>
        simp only [runPeriod] at h
        split at h
        · next v hcs =>
            obtain ⟨rfl, hb⟩ := csub_eq_some hcs
            have hw : 0 ≤ (t.ord - 1) % 7 := Int.emod_nonneg _ (by norm_num)
            simp only [Option.some.injEq, Prod.mk.injEq] at h
            omega
        · exact absurd h (by simp)
      | weekPrev =>
        simp only [runPeriod] at h
        split at h
        · next v hcs =>
            obtain ⟨rfl, hb⟩ := csub_eq_some hcs
            split at h
            · next w hcs2 =>
                obtain ⟨rfl, hb2⟩ := csub_eq_some hcs2
                simp only [Option.some.injEq, Prod.mk.injEq] at h
                omega
            · exact absurd h (by simp)
        · exact absurd h (by simp)
      | monthCur =>
        simp only [runPeriod] at h
        simp only [Option.some.injEq, Prod.mk.injEq] at h
        obtain ⟨rfl, rfl⟩ := h
        obtain ⟨hy1, _, hm1, hm2, hd1, _⟩ := ht
        unfold PyDate.ord toOrd
        omega
      | monthPrev =>
        simp only [runPeriod] at h
        split at h
        · next v hcs =>
            obtain ⟨rfl, hb⟩ := csub_eq_some hcs
            simp only [Option.some.injEq, Prod.mk.injEq] at h
            obtain ⟨hy1, _, hm1, hm2, _, _⟩ := ht
            have hple := prev_month_le t.y t.m hy1 hm1 hm2 (by omega)
            omega
        · exact absurd h (by simp)
  · intro hf h7
    rw [parsePeriodL_eq_fallback t l hf, csub_pos (by omega : (1:Int) ≤ t.ord - 6)]

/-- Witness for C5: the fallback clause at a patternless query and
today = 2026-10-12. -/
theorem parse_period_spec_witness :
    parsePeriodL today0 "こんにちは".toList = some (739895, 739901) := by
  have h := (parse_period_spec today0 (by decide) "こんにちは".toList).2
    (by decide) (by decide)
  have e1 : today0.ord = 739901 := by decide
  rw [e1] at h
  norm_num at h
  exact h

/-! ## Scan lemmas and the past-N-days claim -/

lemma takeWhile_append_stop (p : Char → Bool) (l1 : List Char) (d : Char)
    (l2 : List Char) (h1 : ∀ c ∈ l1, p c = true) (h2 : p d = false) :
    (l1 ++ d :: l2).takeWhile p = l1 := by
  induction l1 with
  | nil => simp [List.takeWhile_cons_of_neg, h2]
  | cons c cs ih =>
    have hc : p c = true := h1 c (by simp)
    simp only [List.cons_append, List.takeWhile_cons_of_pos hc]
    rw [ih (fun x hx => h1 x (by simp [hx]))]

lemma matchNumAt_kakojitsu (ds : List Char) (hne : ds ≠ [])
    (hds : ∀ c ∈ ds, isPyDigit c = true) :
    matchNumAt "過去".toList "日間".toList ('過' :: '去' :: (ds ++ ['日', '間'])) =
      some (digitsToNat ds) := by
  have htake : (ds ++ ['日', '間']).takeWhile isPyDigit = ds :=
    takeWhile_append_stop isPyDigit ds '日' ['間'] hds (by decide)
  have hemp : ¬ ds.isEmpty = true := by
    simpa [List.isEmpty_iff] using hne
  show (if startsWith "過去".toList ('過' :: '去' :: (ds ++ ['日', '間'])) = true then
      numTail "日間".toList ((ds ++ ['日', '間']).takeWhile isPyDigit)
        (ds ++ ['日', '間'])
    else none) = some (digitsToNat ds)
  rw [if_pos (by rfl)]
  rw [htake]
  unfold numTail
  rw [if_neg hemp, List.drop_left, if_pos (by rfl)]

lemma scanNum_head (pre suf : List Char) (c : Char) (cs : List Char) (n : Nat)
    (h : matchNumAt pre suf (c :: cs) = some n) :
    scanNum pre suf (c :: cs) = some n := by
  unfold scanNum
  rw [h]

lemma findPeriod_days (ds : List Char) (hne : ds ≠ [])
    (hds : ∀ c ∈ ds, isPyDigit c = true) :
    findPeriod ('過' :: '去' :: (ds ++ ['日', '間'])) =
      some (.days (digitsToNat ds)) := by
  unfold findPeriod
  rw [scanNum_head _ _ _ _ _ (matchNumAt_kakojitsu ds hne hds)]

/-- C8 counterexample: 過去2000000日間 extracts N = 2000000 ≥ 1, but the
start date two million days before today precedes 0001-01-01, so
parse_period raises OverflowError rather than yielding
(today-(N-1), today). -/
theorem past_n_days_overflow_cex :
    parsePeriodL today0 "過去2000000日間".toList = none := by decide

/-- C8 as amended: for a past-N-days phrase (N given by any non-empty
ASCII digit string), resolution yields (today-(N-1), today) whenever
N ≥ 1 and that start date does not precede 0001-01-01; N = 0 is clamped
to 1, yielding (today, today); and a start before 0001-01-01 raises
OverflowError instead of returning. -/
theorem past_n_days_spec (t : PyDate) (ht : t.Valid) (ds : List Char)
    (hne : ds ≠ []) (hds : ∀ c ∈ ds, isPyDigit c = true) :
    (1 ≤ digitsToNat ds → 1 ≤ t.ord - ((digitsToNat ds : Int) - 1) →
      parsePeriodL t ('過' :: '去' :: (ds ++ ['日', '間'])) =
        some (t.ord - ((digitsToNat ds : Int) - 1), t.ord)) ∧
    (digitsToNat ds = 0 →
      parsePeriodL t ('過' :: '去' :: (ds ++ ['日', '間'])) =
        some (t.ord, t.ord)) ∧
    (1 ≤ digitsToNat ds → t.ord - ((digitsToNat ds : Int) - 1) < 1 →
      parsePeriodL t ('過' :: '去' :: (ds ++ ['日', '間'])) = none) := by
  have hrun := parsePeriodL_eq_run t ('過' :: '去' :: (ds ++ ['日', '間']))
    (.days (digitsToNat ds)) (findPeriod_days ds hne hds)
  have hord := ord_pos t ht
  refine ⟨fun h1 h2 => ?_, fun h0 => ?_, fun h1 h3 => ?_⟩
  · rw [hrun]
    simp only [runPeriod]
    rw [max_eq_right (by exact_mod_cast h1 : (1 : Int) ≤ (digitsToNat ds : Int))]
    rw [csub_pos (by omega)]
  · rw [hrun, h0]
    simp only [runPeriod, Nat.cast_zero]
    rw [show max (1 : Int) 0 - 1 = 0 from by norm_num]
    rw [csub_pos (by omega)]
    norm_num
  · rw [hrun]
    simp only [runPeriod]
    rw [max_eq_right (by exact_mod_cast h1 : (1 : Int) ≤ (digitsToNat ds : Int))]
    unfold csub
    rw [if_neg (by omega)]

/-- Witness for C8 at N = 7 and today = 2026-10-12. -/
theorem past_n_days_spec_witness :
    parsePeriodL today0 ('過' :: '去' :: (['7'] ++ ['日', '間'])) =
      some (739895, 739901) := by
  have h := (past_n_days_spec today0 (by decide) ['7'] (by decide) (by decide)).1
    (by decide) (by decide)
  have e1 : today0.ord = 739901 := by decide
  have e2 : ((digitsToNat ['7'] : Nat) : Int) = 7 := by decide
  rw [e1, e2] at h
  norm_num at h
  exact h

/-- Witness for C1: the metric-only dispatch clause at a concrete
alias-free sessions query. -/
theorem metric_only_turn_spec_witness :
    ∃ m s e,
      (⟨some (739895, 739901), some "sessions", none, none, false,
        "セッション数は？".toList⟩ : ParsedQuery).metric = some m ∧ m ≠ "" ∧
      (⟨some (739895, 739901), some "sessions", none, none, false,
        "セッション数は？".toList⟩ : ParsedQuery).period = some (s, e) ∧
      chatTurn today0 "セッション数は？" sampleCollab =
        some (metricOnlyMsg (fmtOrd s) (fmtOrd e) (some m) sampleCollab) :=
  metric_only_turn_spec.2.1 today0 "セッション数は？" sampleCollab _
    (by decide) (by decide) (by decide)
